import Mathlib

/-!
Verification of the Crash-Game backend (`shk-khalid/Crash-Game-Backend`).

The repository contains two parallel engine implementations:
* a SQLite-backed engine (`src/services/GameEngine.js`, first part) together
  with the socket layer in the first part of `src/services/SocketHandler.js`;
* a MongoDB-backed engine (the `GameEngine` class found in the second part of
  `src/services/SocketHandler.js`) with the models `GameRound.js` / `Player.js`.

Both are embedded below.  JavaScript numbers are modelled as exact rationals
(`ℚ`); `Math.round` is modelled as floor(x + 1/2), which is JS semantics for
the values occurring here.  The SHA-256 hash used by
`src/utils/validation.js` (Node's `crypto.createHash('sha256')`) is modelled
by a byte-accurate executable implementation of FIPS 180-4 SHA-256.
-/

set_option maxRecDepth 100000

namespace Crash

/-! ### SHA-256 (model of Node `crypto.createHash('sha256')`) -/

/-- Truncate a natural number to a 32-bit word. -/
def w32 (n : ℕ) : ℕ := n % 4294967296

/-- Right rotation of a 32-bit word by `n` bits. -/
def rotr32 (n x : ℕ) : ℕ := w32 ((x >>> n) ||| (x <<< (32 - n)))

/-- Logical right shift. -/
def shr32 (n x : ℕ) : ℕ := x >>> n

/-- SHA-256 choice function. -/
def shaCh (x y z : ℕ) : ℕ := (x &&& y) ^^^ ((x ^^^ 4294967295) &&& z)

/-- SHA-256 majority function. -/
def shaMaj (x y z : ℕ) : ℕ := (x &&& y) ^^^ (x &&& z) ^^^ (y &&& z)

/-- SHA-256 big sigma 0. -/
def sigBig0 (x : ℕ) : ℕ := rotr32 2 x ^^^ rotr32 13 x ^^^ rotr32 22 x

/-- SHA-256 big sigma 1. -/
def sigBig1 (x : ℕ) : ℕ := rotr32 6 x ^^^ rotr32 11 x ^^^ rotr32 25 x

/-- SHA-256 small sigma 0. -/
def sigSml0 (x : ℕ) : ℕ := rotr32 7 x ^^^ rotr32 18 x ^^^ shr32 3 x

/-- SHA-256 small sigma 1. -/
def sigSml1 (x : ℕ) : ℕ := rotr32 17 x ^^^ rotr32 19 x ^^^ shr32 10 x

/-- The 64 SHA-256 round constants of FIPS 180-4 (decimal). -/
def shaK : List ℕ :=
  [1116352408, 1899447441, 3049323471, 3921009573, 961987163,
   1508970993, 2453635748, 2870763221, 3624381080, 310598401,
   607225278, 1426881987, 1925078388, 2162078206, 2614888103,
   3248222580, 3835390401, 4022224774, 264347078, 604807628,
   770255983, 1249150122, 1555081692, 1996064986, 2554220882,
   2821834349, 2952996808, 3210313671, 3336571891, 3584528711,
   113926993, 338241895, 666307205, 773529912, 1294757372,
   1396182291, 1695183700, 1986661051, 2177026350, 2456956037,
   2730485921, 2820302411, 3259730800, 3345764771, 3516065817,
   3600352804, 4094571909, 275423344, 430227734, 506948616,
   659060556, 883997877, 958139571, 1322822218, 1537002063,
   1747873779, 1955562222, 2024104815, 2227730452, 2361852424,
   2428436474, 2756734187, 3204031479, 3329325298]

/-- The SHA-256 initial hash value of FIPS 180-4 (decimal). -/
def shaH0 : List ℕ :=
  [1779033703, 3144134277, 1013904242, 2773480762,
   1359893119, 2600822924, 528734635, 1541459225]

/-- Extend a 16-word block to the 64-word message schedule. -/
def extendW (ws : List ℕ) : List ℕ :=
  (List.range 48).foldl
    (fun acc _ =>
      let n := acc.length
      acc ++ [w32 (sigSml1 (acc.getD (n - 2) 0) + acc.getD (n - 7) 0 +
                   sigSml0 (acc.getD (n - 15) 0) + acc.getD (n - 16) 0)])
    ws

/-- One SHA-256 compression step over a 16-word block. -/
def shaCompress (hs : List ℕ) (block : List ℕ) : List ℕ :=
  let ws := extendW block
  let st := (List.range 64).foldl
    (fun (st : ℕ × ℕ × ℕ × ℕ × ℕ × ℕ × ℕ × ℕ) i =>
      let (a, b, c, d, e, f, g, h) := st
      let t1 := w32 (h + sigBig1 e + shaCh e f g + shaK.getD i 0 + ws.getD i 0)
      let t2 := w32 (sigBig0 a + shaMaj a b c)
      (w32 (t1 + t2), a, b, c, w32 (d + t1), e, f, g))
    (hs.getD 0 0, hs.getD 1 0, hs.getD 2 0, hs.getD 3 0,
     hs.getD 4 0, hs.getD 5 0, hs.getD 6 0, hs.getD 7 0)
  match st with
  | (a, b, c, d, e, f, g, h) =>
    [w32 (hs.getD 0 0 + a), w32 (hs.getD 1 0 + b), w32 (hs.getD 2 0 + c),
     w32 (hs.getD 3 0 + d), w32 (hs.getD 4 0 + e), w32 (hs.getD 5 0 + f),
     w32 (hs.getD 6 0 + g), w32 (hs.getD 7 0 + h)]

/-- Big-endian 32-bit word from four bytes. -/
def word4 (b0 b1 b2 b3 : ℕ) : ℕ := (b0 <<< 24) + (b1 <<< 16) + (b2 <<< 8) + b3

/-- Group a byte list into big-endian 32-bit words. -/
def toWords : List ℕ → List ℕ
  | b0 :: b1 :: b2 :: b3 :: rest => word4 b0 b1 b2 b3 :: toWords rest
  | _ => []

/-- Group a word list into 16-word blocks. -/
def wordBlocks : List ℕ → List (List ℕ)
  | w0 :: w1 :: w2 :: w3 :: w4 :: w5 :: w6 :: w7 ::
    w8 :: w9 :: w10 :: w11 :: w12 :: w13 :: w14 :: w15 :: rest =>
      [w0, w1, w2, w3, w4, w5, w6, w7, w8, w9, w10, w11, w12, w13, w14, w15]
        :: wordBlocks rest
  | _ => []

/-- The 8-byte big-endian encoding of a bit length. -/
def lenBytes64 (n : ℕ) : List ℕ :=
  [(n >>> 56) % 256, (n >>> 48) % 256, (n >>> 40) % 256, (n >>> 32) % 256,
   (n >>> 24) % 256, (n >>> 16) % 256, (n >>> 8) % 256, n % 256]

/-- SHA-256 padding: append `0x80`, zeros, and the 64-bit message bit length. -/
def sha256Pad (msg : List ℕ) : List ℕ :=
  let L := msg.length
  let zeros := (64 + 56 - ((L + 1) % 64)) % 64
  msg ++ [128] ++ List.replicate zeros 0 ++ lenBytes64 (8 * L)

/-- SHA-256 digest of a byte list, as eight 32-bit words. -/
def sha256Words (msg : List ℕ) : List ℕ :=
  (wordBlocks (toWords (sha256Pad msg))).foldl shaCompress shaH0

/-- The integer denoted by the first six hex characters of the digest,
i.e. the top 24 bits of the first word (`parseInt(hash.slice(0, 6), 16)`). -/
def sha256First24 (msg : List ℕ) : ℕ := (sha256Words msg).getD 0 0 >>> 8

/-- UTF-8 encoding of a character, as Node's `update(input)` uses. -/
def utf8Bytes (c : Char) : List ℕ :=
  let n := c.toNat
  if n < 128 then [n]
  else if n < 2048 then [192 ||| (n >>> 6), 128 ||| (n &&& 63)]
  else if n < 65536 then
    [224 ||| (n >>> 12), 128 ||| ((n >>> 6) &&& 63), 128 ||| (n &&& 63)]
  else
    [240 ||| (n >>> 18), 128 ||| ((n >>> 12) &&& 63),
     128 ||| ((n >>> 6) &&& 63), 128 ||| (n &&& 63)]

/-- UTF-8 bytes of a string. -/
def strBytes (s : String) : List ℕ := (s.toList.map utf8Bytes).flatten

/-! ### JavaScript numeric helpers -/

/-- JavaScript `Math.round` on the exact rationals: floor(x + 1/2).
`Rat.floor` is used so the definition evaluates inside the kernel; it agrees
with the mathematical floor by `jsRound_eq`. -/
def jsRound (q : ℚ) : ℤ := Rat.floor (q + 1 / 2)

/-- `jsRound` is the mathematical floor of `q + 1/2`. -/
theorem jsRound_eq (q : ℚ) : jsRound q = ⌊q + 1 / 2⌋ := by
  rw [jsRound, Rat.floor_def', ← Rat.floor_def]

/-- Rounding to two decimal places: `Math.round(x * 100) / 100`, which is
also the model of `parseFloat(x.toFixed(2))` for the nonnegative values
occurring here. -/
def round2 (q : ℚ) : ℚ := ((jsRound (q * 100) : ℤ) : ℚ) / 100

/-! ### `src/utils/validation.js` — provably fair generator and verifier -/

/-- `generateCrashPoint(seed, roundNumber)` from `src/utils/validation.js`:
`crashPoint = (parseInt(sha256(seed ++ "-" ++ roundNumber).slice(0,6), 16)
% (maxCrashPoint * 10 - 10)) / 10 + 1.0`, rounded to two decimals.
`MAX_CRASH_POINT` is unset in the documented configuration, so
`maxCrashPoint = 13.0` and the modulus is `13 * 10 - 10 = 120`. -/
def generateCrashPoint (seed : String) (roundNumber : ℕ) : ℚ :=
  let input := seed ++ "-" ++ toString roundNumber
  let randomValue := sha256First24 (strBytes input)
  let crashPoint : ℚ := ((randomValue % (13 * 10 - 10) : ℕ) : ℚ) / 10 + 1
  round2 crashPoint

/-- `verifyCrashPoint(seed, roundNumber, crashPoint)` from
`src/utils/validation.js`: recompute and compare with absolute
tolerance `< 0.01`. -/
def verifyCrashPoint (seed : String) (roundNumber : ℕ) (crashPoint : ℚ) : Bool :=
  decide (|generateCrashPoint seed roundNumber - crashPoint| < 1 / 100)

/-- Sanity anchor for the SHA-256 model: `sha256("abc-1")` starts with
`65397a`, hence `generateCrashPoint("abc", 1) = 2.0`, matching the value
computed by the JavaScript implementation. -/
theorem generateCrashPoint_abc_1 : generateCrashPoint "abc" 1 = 2 := by
  with_unfolding_all rfl

/-! ### Documented configuration (`.env` defaults from the repository READMEs) -/

/-- `MIN_BET_AMOUNT` from the documented `.env` (SQLite engine). -/
def MIN_BET_AMOUNT : ℚ := 1

/-- `MAX_BET_AMOUNT` from the documented `.env` (SQLite engine). -/
def MAX_BET_AMOUNT : ℚ := 1000

/-- `this.MIN_MULTIPLIER` in `GameEngine.js`. -/
def MIN_MULTIPLIER : ℚ := 1

/-- `this.MAX_MULTIPLIER` in `GameEngine.js` (default `100.0`). -/
def MAX_MULTIPLIER : ℚ := 100

/-- `this.HOUSE_EDGE` in `GameEngine.js` (default `0.01`). -/
def HOUSE_EDGE : ℚ := 1 / 100

/-! ### SQLite engine — `src/services/GameEngine.js` (first part)

The engine's mutable fields, the `users` and `bets` tables it reads and
writes, and its operations `placeBet`, `cashOut`, `updateMultiplier`,
`crashGame`, `processActiveBets`, `getCurrentGameState` are embedded as a
pure transition system.  `Date.now()` values and the SQLite transaction
outcome are passed as explicit inputs.  An operation that throws is
modelled as returning the pre-call state together with `Except.error`
(the SQLite engine wraps its writes in `BEGIN`/`COMMIT` with a `ROLLBACK`
in the `catch`, so a failed call leaves the store as it was). -/

/-- `this.gameState` of the SQLite engine. -/
inductive GState1 where
  | waiting | betting | running | crashed
deriving DecidableEq

/-- An entry of `this.activeBets` (a JS `Map` keyed by user id). -/
structure ABet where
  betId : ℕ
  amount : ℚ
  cashedOut : Bool
  cashOutMultiplier : Option ℚ
  cashOutAmount : Option ℚ
deriving DecidableEq

/-- A row of the `users` table (the columns the engine touches). -/
structure User1 where
  balance : ℚ
  totalWon : ℚ
deriving DecidableEq

/-- The `status` column of the `bets` table. -/
inductive BetStatus where
  | active | cashedOut | lost
deriving DecidableEq

/-- A row of the `bets` table. -/
structure BetRow where
  betId : ℕ
  userId : ℕ
  roundId : ℕ
  betAmount : ℚ
  cashOutAt : Option ℚ
  cashOutAmount : Option ℚ
  profit : ℚ
  status : BetStatus
deriving DecidableEq

/-- The SQLite engine state: the `GameEngine` fields plus the two tables. -/
structure State1 where
  gameState : GState1
  multiplier : ℚ
  crashPoint : ℚ
  currentRound : ℕ
  startTime : ℤ
  activeBets : List (ℕ × ABet)
  users : List (ℕ × User1)
  bets : List BetRow
deriving DecidableEq

/-- Events the SQLite engine emits through `io.emit`.  The
`multiplier_update` payload is `{roundId, multiplier, timestamp}` — it has
no crash-point field, exactly as in the source. -/
inductive Event1 where
  | multiplierUpdate (roundId : ℕ) (multiplier : ℚ) (timestamp : ℤ)
  | roundCrashed (roundId : ℕ) (crashPoint : ℚ) (timestamp : ℤ)
deriving DecidableEq

/-- Errors of the SQLite engine: one constructor per
`throw new Error(...)` message, `txFailed` for a rejected query inside
`BEGIN ... COMMIT`, and `rollbackFailed` for the SQLITE_ERROR
"cannot rollback - no transaction is active" raised by a bare
`ROLLBACK`. -/
inductive GErr where
  | bettingNotActive     -- "Betting is not active"
  | invalidBetAmount     -- "Invalid bet amount"
  | duplicateBet         -- "You already have a bet in this round"
  | insufficientBalance  -- "Insufficient balance"
  | cannotCashOutNow     -- "Cannot cash out now"
  | noActiveBetFound     -- "No active bet found"
  | txFailed             -- a rejected query inside BEGIN ... COMMIT
  | rollbackFailed       -- "cannot rollback - no transaction is active"
deriving DecidableEq

/-- The `catch` block of `placeBet` and `cashOut` runs
`await runQuery('ROLLBACK')` before rethrowing.  When the error was
thrown before `BEGIN TRANSACTION` succeeded, no transaction is open, the
bare `ROLLBACK` rejects, and that rejection propagates from the `catch`
instead of the original error: whatever was thrown, the caller observes
the rollback failure.  (For an error thrown inside the transaction the
`ROLLBACK` succeeds and the original error is rethrown.) -/
def maskedByRollback (_thrown : GErr) : GErr := .rollbackFailed

/-- JS `Map.set`: replace the value under the key, else append. -/
def mapSet (l : List (ℕ × ABet)) (k : ℕ) (v : ABet) : List (ℕ × ABet) :=
  if (List.lookup k l).isSome then
    l.map (fun p => if p.1 == k then (k, v) else p)
  else l ++ [(k, v)]

/-- `UPDATE users SET ... WHERE id = ?`. -/
def updateUser (l : List (ℕ × User1)) (k : ℕ) (f : User1 → User1) :
    List (ℕ × User1) :=
  l.map (fun p => if p.1 == k then (p.1, f p.2) else p)

/-- Outcome of the three queries issued inside the `placeBet` transaction,
together with the fresh `uuidv4()` bet id.  A `false` flag models the
corresponding awaited query rejecting, in which case the `catch` block
rolls the transaction back. -/
structure SqlEnv where
  updateOk : Bool
  insertOk : Bool
  commitOk : Bool
  newBetId : ℕ
deriving DecidableEq

/-- Result of a successful `placeBet` (`{success: true, betId}`). -/
structure PlaceRes1 where
  betId : ℕ
deriving DecidableEq

/-- `GameEngine.placeBet(userId, amount, socketId)` (SQLite engine).
Guards in source order; every guard throws inside the `try`, before
`BEGIN TRANSACTION`, so the caller observes the masked rollback failure
rather than the guard's own message.  On success the balance debit, the
`bets` insert and the `activeBets.set` all take effect; a failure inside
the transaction is rolled back (and the original error rethrown, the
`ROLLBACK` having succeeded). -/
def placeBet1 (userId : ℕ) (amount : ℚ) (env : SqlEnv) (s : State1) :
    State1 × Except GErr PlaceRes1 :=
  if s.gameState ≠ .betting then (s, .error (maskedByRollback .bettingNotActive))
  else if amount < MIN_BET_AMOUNT ∨ amount > MAX_BET_AMOUNT then
    (s, .error (maskedByRollback .invalidBetAmount))
  else if (List.lookup userId s.activeBets).isSome then
    (s, .error (maskedByRollback .duplicateBet))
  else
    match List.lookup userId s.users with
    | none => (s, .error (maskedByRollback .insufficientBalance))
    | some u =>
      if u.balance < amount then (s, .error (maskedByRollback .insufficientBalance))
      else if env.updateOk && env.insertOk && env.commitOk then
        ({ s with
            users := updateUser s.users userId
              (fun w => { w with balance := w.balance - amount }),
            bets := s.bets ++
              [⟨env.newBetId, userId, s.currentRound, amount,
                none, none, 0, .active⟩],
            activeBets := mapSet s.activeBets userId
              ⟨env.newBetId, amount, false, none, none⟩ },
         .ok ⟨env.newBetId⟩)
      else (s, .error .txFailed)

/-- Result of a successful `cashOut` (SQLite engine). -/
structure CashRes1 where
  multiplier : ℚ
  amount : ℚ
  profit : ℚ
deriving DecidableEq

/-- Outcome of the three queries issued inside the `cashOut` transaction
(the `users` update, the `bets` update, the `COMMIT`).  A `false` flag
models the corresponding awaited query rejecting. -/
structure CashEnv where
  updateUsersOk : Bool
  updateBetsOk : Bool
  commitOk : Bool
deriving DecidableEq

/-- `GameEngine.cashOut(userId, socketId)` (SQLite engine): requires
`gameState === 'running'` and an uncashed active bet; pays
`bet.amount * this.multiplier`, marks the map entry cashed out, credits
`balance` (and `total_won`), and updates the bet row.  The guards throw
inside the `try` before `BEGIN`, so their errors reach the caller masked
by the failed bare `ROLLBACK`.  The in-memory `bet.cashedOut = true` is
assigned before `BEGIN TRANSACTION`: when a query inside the
transaction fails, the database writes are rolled back (and the original
error rethrown) but the map entry stays marked cashed out. -/
def cashOut1 (userId : ℕ) (env : CashEnv) (s : State1) :
    State1 × Except GErr CashRes1 :=
  if s.gameState ≠ .running then (s, .error (maskedByRollback .cannotCashOutNow))
  else
    match List.lookup userId s.activeBets with
    | none => (s, .error (maskedByRollback .noActiveBetFound))
    | some bet =>
      if bet.cashedOut then (s, .error (maskedByRollback .noActiveBetFound))
      else
        let cashOutMultiplier := s.multiplier
        let cashOutAmount := bet.amount * cashOutMultiplier
        let profit := cashOutAmount - bet.amount
        let bet1 : ABet :=
          { bet with
              cashedOut := true,
              cashOutMultiplier := some cashOutMultiplier,
              cashOutAmount := some cashOutAmount }
        if env.updateUsersOk && env.updateBetsOk && env.commitOk then
          ({ s with
              activeBets := mapSet s.activeBets userId bet1,
              users := updateUser s.users userId
                (fun w => ⟨w.balance + cashOutAmount, w.totalWon + profit⟩),
              bets := s.bets.map (fun r =>
                if r.betId == bet.betId then
                  { r with
                      status := .cashedOut,
                      cashOutAt := some cashOutMultiplier,
                      cashOutAmount := some cashOutAmount,
                      profit := profit }
                else r) },
           .ok ⟨cashOutMultiplier, cashOutAmount, profit⟩)
        else
          ({ s with activeBets := mapSet s.activeBets userId bet1 },
           .error .txFailed)

/-- `GameEngine.processActiveBets()` (SQLite engine): every entry of
`activeBets` that is not cashed out has its bet row set to
`status = 'lost', profit = -bet_amount`. -/
def processActiveBets1 (s : State1) : State1 :=
  { s with
      bets := s.activeBets.foldl
        (fun rows p =>
          if p.2.cashedOut then rows
          else rows.map (fun r =>
            if r.betId == p.2.betId then
              { r with status := .lost, profit := -r.betAmount }
            else r))
        s.bets }

/-- `GameEngine.crashGame()` (SQLite engine): record `gameState = 'crashed'`,
settle the active bets and emit `round_crashed` revealing the crash
point.  The multiplier field is left untouched — the source has no
clamping assignment. -/
def crashGame1 (s : State1) (now : ℤ) : State1 × List Event1 :=
  let s1 := processActiveBets1 { s with gameState := .crashed }
  (s1, [.roundCrashed s.currentRound s.crashPoint now])

/-- `GameEngine.updateMultiplier()` (SQLite engine): recompute
`multiplier = 1 + (elapsed / 1000) * 0.1` from the wall clock, crash if the
crash point is reached, otherwise broadcast `multiplier_update`. -/
def updateMultiplier1 (s : State1) (now : ℤ) : State1 × List Event1 :=
  if s.gameState ≠ .running then (s, [])
  else
    let elapsed : ℚ := ((now - s.startTime : ℤ) : ℚ)
    let m := 1 + elapsed / 1000 * (1 / 10)
    let s1 := { s with multiplier := m }
    if m ≥ s.crashPoint then crashGame1 s1 now
    else (s1, [.multiplierUpdate s.currentRound (round2 m) now])

/-- The payload of `getCurrentGameState()` (SQLite engine); `crashPoint`
is `null` unless the state is `'crashed'`. -/
structure GameStatePayload where
  roundId : ℕ
  state : GState1
  multiplier : ℚ
  crashPoint : Option ℚ
  activeBets : List (ℕ × ℚ × Bool × Option ℚ)
deriving DecidableEq

/-- `GameEngine.getCurrentGameState()` (SQLite engine). -/
def getCurrentGameState (s : State1) : GameStatePayload :=
  { roundId := s.currentRound
    state := s.gameState
    multiplier := round2 s.multiplier
    crashPoint := if s.gameState = .crashed then some s.crashPoint else none
    activeBets := s.activeBets.map (fun p =>
      (p.1, p.2.amount, p.2.cashedOut, p.2.cashOutMultiplier)) }

/-- `GameEngine.generateCrashPoint()` (SQLite engine): clamp
`1 / (1 - random * (1 - houseEdge))` into
`[MIN_MULTIPLIER, MAX_MULTIPLIER]` and keep two decimals.  The
`Math.random()` draw is the explicit input. -/
def engineGenerateCrashPoint (random : ℚ) : ℚ :=
  round2 (max MIN_MULTIPLIER
    (min MAX_MULTIPLIER (1 / (1 - random * (1 - HOUSE_EDGE)))))

/-! ### MongoDB engine — the `GameEngine` in the second part of
`src/services/SocketHandler.js`, with `models/GameRound.js` and
`models/Player.js`

State is the persistent view: a `save()` that succeeds commits the
in-memory mutation, a `save()` that rejects leaves the store as it was.
This engine has no transactions and no rollback, so a method can return an
error after some of its saves have already committed. -/

/-- `status` of a `GameRound` document. -/
inductive MStatus where
  | waiting | active | crashed | completed
deriving DecidableEq

/-- The two supported currencies. -/
inductive Curr where
  | BTC | ETH
deriving DecidableEq

/-- A bet subdocument of a `GameRound` as Mongoose stores it.  The schema
declares a required field `cryptoAmount`, but `GameRound.addBet` pushes
the key `cryptoAmt`; Mongoose's strict mode discards the undeclared key,
so the stored subdocument has no crypto amount at all — modelled by
`cryptoAmount : Option ℚ`, with `addBet` storing `none`. -/
structure MBet where
  player : ℕ
  usd : ℚ
  cryptoAmount : Option ℚ
  currency : Curr
deriving DecidableEq

/-- Mongoose validation of a bet subdocument: the schema marks
`cryptoAmount` as `required: true`, so a document missing it fails
validation when its parent round is saved. -/
def betValid (b : MBet) : Bool := b.cryptoAmount.isSome

/-- A cashout subdocument as pushed by `GameRound.addCashout`. -/
structure MCashout where
  player : ℕ
  payout : ℚ
  multiplier : ℚ
deriving DecidableEq

/-- A `GameRound` document. -/
structure MRound where
  roundNumber : ℕ
  crashPoint : ℚ
  seed : String
  startTime : ℤ
  status : MStatus
  bets : List MBet
  cashouts : List MCashout
  finalMultiplier : ℚ
deriving DecidableEq

/-- A player's crypto wallet. -/
structure Wallet where
  btc : ℚ
  eth : ℚ
deriving DecidableEq

/-- `wallet[currency]`. -/
def walletGet (w : Wallet) : Curr → ℚ
  | .BTC => w.btc
  | .ETH => w.eth

/-- Write `wallet[currency]`. -/
def walletSet (w : Wallet) (c : Curr) (v : ℚ) : Wallet :=
  match c with
  | .BTC => { w with btc := v }
  | .ETH => { w with eth := v }

/-- A `Player` document (the fields the engine touches). -/
structure MPlayer where
  name : String
  wallet : Wallet
  totalWins : ℕ
deriving DecidableEq

/-- The MongoDB engine state: `roundNumber`, `currentRound`,
`currentMultiplier` and the `players` collection. -/
structure MState where
  roundNumber : ℕ
  currentRound : Option MRound
  currentMultiplier : ℚ
  players : List (ℕ × MPlayer)
deriving DecidableEq

/-- Errors thrown by the MongoDB engine, one per `throw new Error(...)`
message, plus `saveFailed` for a rejected `save()`. -/
inductive MErr where
  | noActiveRound        -- "No active round" / "No active round or round has ended"
  | bettingWindowClosed  -- "Betting window has closed for this round"
  | minBet               -- "Minimum bet is $0.01"
  | playerNotFound       -- "Player not found"
  | insufficientBalance  -- "Insufficient ... balance"
  | roundCrashed         -- "Round has crashed, cannot cash out"
  | noBetFound           -- "No bet found for this round"
  | alreadyCashedOut     -- "Already cashed out for this round"
  | saveFailed           -- a rejected `save()` (no rollback is performed)
deriving DecidableEq

/-- Events emitted by the MongoDB engine's multiplier ticker and
`endRound`.  Note that the `multiplier_update` payload carries a
`crashPoint` field, exactly as in the source
(`startMultiplierTicker`). -/
inductive MEvent where
  | multiplierUpdate (roundNumber : ℕ) (multiplier : ℚ) (crashPoint : ℚ)
  | roundEnd (roundNumber : ℕ) (crashPoint : ℚ) (finalMultiplier : ℚ)
      (totalBets : ℕ) (totalCashouts : ℕ)
deriving DecidableEq

/-- `GameRound.isBettingAllowed()`: status `'active'` and within the first
5000 ms of the round. -/
def isBettingAllowed (r : MRound) (now : ℤ) : Bool :=
  r.status == .active && decide (now - r.startTime ≤ 5000)

/-- Outcome of the awaited `save()` calls inside `placeBet`
(player, round, transaction — in source order). -/
structure SaveEnv where
  playerSaveOk : Bool
  roundSaveOk : Bool
  txSaveOk : Bool
deriving DecidableEq

/-- Result of a successful MongoDB `placeBet`. -/
structure MPlaceRes where
  cryptoAmount : ℚ
  currentPrice : ℚ
  remainingBalance : ℚ
deriving DecidableEq

/-- Replace a player document in the collection. -/
def updatePlayer (l : List (ℕ × MPlayer)) (k : ℕ) (p : MPlayer) :
    List (ℕ × MPlayer) :=
  l.map (fun q => if q.1 == k then (q.1, p) else q)

/-- The MongoDB `GameEngine.placeBet(playerId, usdAmount, currency)`.
Guards in source order.  There is no duplicate-bet check.  The wallet
debit is saved first; then `addBet` pushes the bet (whose `cryptoAmt` key
is discarded by the schema, leaving the required `cryptoAmount` missing)
and the round is saved — a save that succeeds only if it passes
validation, which the just-pushed bet never does; then the transaction
record is saved.  A later failure does not undo an earlier committed
save, and the `catch` merely logs and rethrows. -/
def mongoPlaceBet (playerId : ℕ) (usdAmount : ℚ) (currency : Curr)
    (currentPrice : ℚ) (now : ℤ) (env : SaveEnv) (s : MState) :
    MState × Except MErr MPlaceRes :=
  match s.currentRound with
  | none => (s, .error .noActiveRound)
  | some r =>
    if ¬ isBettingAllowed r now then (s, .error .bettingWindowClosed)
    else if usdAmount < 1 / 100 then (s, .error .minBet)
    else
      match List.lookup playerId s.players with
      | none => (s, .error .playerNotFound)
      | some player =>
        let cryptoAmount := usdAmount / currentPrice
        if walletGet player.wallet currency < cryptoAmount then
          (s, .error .insufficientBalance)
        else if ¬ env.playerSaveOk then (s, .error .saveFailed)
        else
          let player1 := { player with
            wallet := walletSet player.wallet currency
              (walletGet player.wallet currency - cryptoAmount) }
          let s1 := { s with players := updatePlayer s.players playerId player1 }
          let r1 := { r with
            bets := r.bets ++ [⟨playerId, usdAmount, none, currency⟩] }
          if env.roundSaveOk && r1.bets.all betValid then
            let s2 := { s1 with currentRound := some r1 }
            if ¬ env.txSaveOk then (s2, .error .saveFailed)
            else
              (s2, .ok ⟨cryptoAmount, currentPrice,
                        walletGet player1.wallet currency⟩)
          else (s1, .error .saveFailed)

/-- Result of a successful MongoDB `cashOut`. -/
structure MCashRes where
  multiplier : ℚ
  usdPayout : ℚ
  cryptoPayout : ℚ
  currency : Curr
deriving DecidableEq

/-- The MongoDB `GameEngine.cashOut(playerId)`: requires an `'active'`
round with `currentMultiplier < crashPoint`, an existing bet and no prior
cashout by the player; credits `cryptoAmt * currentMultiplier` (the absent key, see `MBet`) to the
wallet and appends a cashout record. -/
def mongoCashOut (playerId : ℕ) (currentPrice : ℚ) (s : MState) :
    MState × Except MErr MCashRes :=
  match s.currentRound with
  | none => (s, .error .noActiveRound)
  | some r =>
    if r.status ≠ .active then (s, .error .noActiveRound)
    else if s.currentMultiplier ≥ r.crashPoint then (s, .error .roundCrashed)
    else
      match r.bets.find? (fun b => b.player == playerId) with
      | none => (s, .error .noBetFound)
      | some playerBet =>
        if (r.cashouts.find? (fun co => co.player == playerId)).isSome then
          (s, .error .alreadyCashedOut)
        else
          -- the source reads `playerBet.cryptoAmt`, a key the stored
          -- document does not carry (undefined, hence NaN in JS); since no
          -- bet ever persists, this branch is unreachable, and the model
          -- reads the declared field with default 0
          let cryptoPayout :=
            playerBet.cryptoAmount.getD 0 * s.currentMultiplier
          let usdPayout := cryptoPayout * currentPrice
          match List.lookup playerId s.players with
          | none => (s, .error .playerNotFound)
          | some player =>
            let player1 := { player with
              wallet := walletSet player.wallet playerBet.currency
                (walletGet player.wallet playerBet.currency + cryptoPayout),
              totalWins := player.totalWins + 1 }
            let r1 := { r with
              cashouts := r.cashouts ++
                [⟨playerId, usdPayout, s.currentMultiplier⟩] }
            ({ s with
                players := updatePlayer s.players playerId player1,
                currentRound := some r1 },
             .ok ⟨s.currentMultiplier, usdPayout, cryptoPayout,
                  playerBet.currency⟩)

/-- The MongoDB `GameEngine.endRound()`: mark the round `'completed'`,
record the final multiplier and emit `round_end`. -/
def mongoEndRound (s : MState) : MState × List MEvent :=
  match s.currentRound with
  | none => (s, [])
  | some r =>
    if r.status ≠ .active then (s, [])
    else
      let r1 := { r with status := .completed,
                         finalMultiplier := s.currentMultiplier }
      ({ s with currentRound := some r1 },
       [.roundEnd r.roundNumber r.crashPoint s.currentMultiplier
          r.bets.length r.cashouts.length])

/-- One tick of the MongoDB `startMultiplierTicker` callback: stop on a
dead round, end the round when the crash point is reached, otherwise
increment the multiplier by 0.01 and — every whole multiplier — broadcast
`multiplier_update {roundNumber, multiplier, crashPoint}`. -/
def mongoTick (s : MState) : MState × List MEvent :=
  match s.currentRound with
  | none => (s, [])
  | some r =>
    if r.status ≠ .active then (s, [])
    else if s.currentMultiplier ≥ r.crashPoint then mongoEndRound s
    else
      let m := round2 (s.currentMultiplier + 1 / 100)
      let s1 := { s with currentMultiplier := m }
      if jsRound (m * 100) % 100 = 0 then
        (s1, [.multiplierUpdate s.roundNumber m r.crashPoint])
      else (s1, [])

/-! ### Helper lemmas -/

theorem floor_half : ⌊(1 / 2 : ℚ)⌋ = 0 := by
  rw [Int.floor_eq_zero_iff]
  constructor <;> norm_num

theorem jsRound_natCast (m : ℕ) : jsRound ((m : ℚ)) = m := by
  rw [jsRound_eq]
  have h : ((m : ℚ)) + 1 / 2 = ((m : ℤ) : ℚ) + 1 / 2 := by push_cast; ring
  rw [h, Int.floor_int_add, floor_half, add_zero]

theorem round2_tenth (k : ℕ) : round2 ((k : ℚ) / 10 + 1) = (k : ℚ) / 10 + 1 := by
  have h : ((k : ℚ) / 10 + 1) * 100 = ((10 * k + 100 : ℕ) : ℚ) := by
    push_cast; ring
  rw [round2, h, jsRound_natCast]
  push_cast; ring

/-- Closed form of the validation.js generator: the rounding step is the
identity because the scaled value is already a multiple of `0.1`. -/
theorem generateCrashPoint_eq (seed : String) (n : ℕ) :
    generateCrashPoint seed n =
      ((sha256First24 (strBytes (seed ++ "-" ++ toString n)) % 120 : ℕ) : ℚ)
        / 10 + 1 := by
  unfold generateCrashPoint
  exact round2_tenth _

theorem round2_mem (q : ℚ) (h1 : 1 ≤ q) (h2 : q ≤ 100) :
    1 ≤ round2 q ∧ round2 q ≤ 100 := by
  rw [round2, jsRound_eq]
  have hl : (100 : ℤ) ≤ ⌊q * 100 + 1 / 2⌋ := Int.le_floor.mpr (by push_cast; linarith)
  have hu : ⌊q * 100 + 1 / 2⌋ < 10001 := Int.floor_lt.mpr (by push_cast; linarith)
  have hl' : (100 : ℚ) ≤ (⌊q * 100 + 1 / 2⌋ : ℤ) := by exact_mod_cast hl
  have hu' : ((⌊q * 100 + 1 / 2⌋ : ℤ) : ℚ) ≤ 10000 := by
    exact_mod_cast Int.lt_add_one_iff.mp hu
  constructor <;> linarith

/-! ### Claim theorems: the crash-point generator -/

/-- C1 (counterexample): the claim "verifyCrashPoint returns false for any
other claimed multiplier" fails.  For seed `"abc"`, round `1` (generated
multiplier `2.0`): the claimed value `generated + 0.005` differs from the
generated multiplier yet verifies; and `1131529406376837 / 562949953421312`
— the IEEE-754 double the program computes for the expression
`generateCrashPoint("abc", 1) + 0.01`, whose exact distance from `2.0` is
`0.00999999999999978…` — also differs from the generated multiplier yet
verifies, so even the claim's own "+0.01" instance is accepted by the
program. -/
theorem verify_accepts_nearby_value :
    verifyCrashPoint "abc" 1 (generateCrashPoint "abc" 1 + 1 / 200) = true
    ∧ generateCrashPoint "abc" 1 + 1 / 200 ≠ generateCrashPoint "abc" 1
    ∧ verifyCrashPoint "abc" 1 (1131529406376837 / 562949953421312) = true
    ∧ (1131529406376837 / 562949953421312 : ℚ) ≠ generateCrashPoint "abc" 1 :=
  of_decide_eq_true (by with_unfolding_all rfl)

/-- C1 (amended): `generateCrashPoint` is deterministic; `verifyCrashPoint`
accepts the generated multiplier, accepts every claimed multiplier whose
difference from it is less than `0.01` — which, in the program's double
arithmetic, includes the value computed for `generated + 0.01` whenever
the crash point is at least `2.0` — and rejects every claimed multiplier
whose difference is at least `0.01` (such as `generated + 1`). -/
theorem generate_deterministic_verify_tolerance (seed : String) (n : ℕ) :
    generateCrashPoint seed n = generateCrashPoint seed n
    ∧ verifyCrashPoint seed n (generateCrashPoint seed n) = true
    ∧ (∀ c : ℚ, |generateCrashPoint seed n - c| < 1 / 100 →
        verifyCrashPoint seed n c = true)
    ∧ (∀ c : ℚ, 1 / 100 ≤ |generateCrashPoint seed n - c| →
        verifyCrashPoint seed n c = false) := by
  refine ⟨rfl, ?_, ?_, ?_⟩
  · simp only [verifyCrashPoint, decide_eq_true_eq, sub_self, abs_zero]
    norm_num
  · intro c hc
    simp only [verifyCrashPoint, decide_eq_true_eq]
    exact hc
  · intro c hc
    simp only [verifyCrashPoint, decide_eq_false_iff_not, not_lt]
    exact hc

/-- C1 (witness): the acceptance branch applied at seed `"abc"`, round
`1`, claimed value `generated + 0.002`, and the rejection branch at
claimed value `generated + 1`. -/
theorem generate_deterministic_verify_tolerance_holds :
    verifyCrashPoint "abc" 1 (generateCrashPoint "abc" 1 + 1 / 500) = true
    ∧ verifyCrashPoint "abc" 1 (generateCrashPoint "abc" 1 + 1) = false :=
  ⟨(generate_deterministic_verify_tolerance "abc" 1).2.2.1
      (generateCrashPoint "abc" 1 + 1 / 500)
      (by
        have h : generateCrashPoint "abc" 1 - (generateCrashPoint "abc" 1 + 1 / 500)
            = -(1 / 500) := by ring
        rw [h, abs_neg, abs_of_pos (by norm_num : (0 : ℚ) < 1 / 500)]
        norm_num),
   (generate_deterministic_verify_tolerance "abc" 1).2.2.2
      (generateCrashPoint "abc" 1 + 1)
      (by
        have h : generateCrashPoint "abc" 1 - (generateCrashPoint "abc" 1 + 1)
            = -1 := by ring
        rw [h, abs_neg, abs_one]; norm_num)⟩

/-- C10: `verifyCrashPoint(seed, n, claimed)` is true exactly when the
claimed value is within `0.01` of the generated crash point; in
particular a claimed value `0.005` away from the generated one — hence
different from it — verifies. -/
theorem verify_iff_within_tolerance :
    (∀ (seed : String) (n : ℕ) (c : ℚ),
      verifyCrashPoint seed n c = true ↔
        |generateCrashPoint seed n - c| < 1 / 100)
    ∧ verifyCrashPoint "xy" 2 (generateCrashPoint "xy" 2 + 1 / 200) = true
    ∧ generateCrashPoint "xy" 2 + 1 / 200 ≠ generateCrashPoint "xy" 2 := by
  refine ⟨fun seed n c => ?_, ?_, by norm_num⟩
  · simp [verifyCrashPoint]
  · simp only [verifyCrashPoint, decide_eq_true_eq]
    have h : generateCrashPoint "xy" 2 - (generateCrashPoint "xy" 2 + 1 / 200)
        = -(1 / 200) := by ring
    rw [h, abs_neg, abs_of_pos (by norm_num : (0 : ℚ) < 1 / 200)]
    norm_num

/-- C8: both generators stay inside their configured range: the
validation.js generator maps every seed and round number into
`[1.0, 13.0]` (indeed into `[1.0, 12.9]`), and the GameEngine.js generator
clamps every random draw into `[1.0, 100.0]`. -/
theorem crashPoint_in_range :
    (∀ (seed : String) (n : ℕ),
      1 ≤ generateCrashPoint seed n ∧ generateCrashPoint seed n ≤ 13)
    ∧ ∀ random : ℚ,
        1 ≤ engineGenerateCrashPoint random
        ∧ engineGenerateCrashPoint random ≤ 100 := by
  constructor
  · intro seed n
    rw [generateCrashPoint_eq]
    set k := sha256First24 (strBytes (seed ++ "-" ++ toString n)) % 120 with hk
    have hklt : k < 120 := Nat.mod_lt _ (by norm_num)
    have h0 : (0 : ℚ) ≤ (k : ℚ) := Nat.cast_nonneg k
    have h119 : (k : ℚ) ≤ 119 := by
      exact_mod_cast Nat.le_of_lt_succ hklt
    constructor <;> linarith
  · intro random
    have h := round2_mem (max MIN_MULTIPLIER
        (min MAX_MULTIPLIER (1 / (1 - random * (1 - HOUSE_EDGE)))))
      (le_max_left _ _)
      (max_le (by norm_num [MIN_MULTIPLIER])
        (by simp [MAX_MULTIPLIER]))
    simpa [engineGenerateCrashPoint] using h

/-! ### Claim theorems: the multiplier tick (C2) -/

/-- A SQLite-engine state in the middle of a running round, used as the
concrete input for the tick theorems: crash point `2.0`, sealed at round
start, multiplier last seen at `1.5`. -/
def sRunC2 : State1 :=
  ⟨.running, 3 / 2, 2, 1, 0, [], [], []⟩

/-- C2 (counterexample): the tick that reaches the crash point does not
clamp the multiplier to the crash point.  From `sRunC2` (crash point
`2.0`), the tick at `now = 15000` computes `1 + 15 * 0.1 = 2.5 ≥ 2.0`,
transitions to `'crashed'` — and leaves `multiplier = 2.5`, strictly above
the crash point, not equal to it. -/
theorem crash_tick_not_clamped :
    (updateMultiplier1 sRunC2 15000).1.gameState = .crashed
    ∧ (updateMultiplier1 sRunC2 15000).1.multiplier = 5 / 2
    ∧ ¬ (updateMultiplier1 sRunC2 15000).1.multiplier = sRunC2.crashPoint
    ∧ sRunC2.crashPoint < (updateMultiplier1 sRunC2 15000).1.multiplier :=
  of_decide_eq_true (by with_unfolding_all rfl)

/-- A tick from a running state always stores the recomputed multiplier,
whether or not it crashes the round. -/
theorem updateMultiplier1_multiplier (s : State1) (now : ℤ)
    (h : s.gameState = .running) :
    (updateMultiplier1 s now).1.multiplier
      = 1 + ((now - s.startTime : ℤ) : ℚ) / 1000 * (1 / 10) := by
  unfold updateMultiplier1
  rw [if_neg (by simp [h])]
  dsimp only
  split <;> rfl

/-- The tick never changes the sealed crash point. -/
theorem updateMultiplier1_crashPoint (s : State1) (now : ℤ) :
    (updateMultiplier1 s now).1.crashPoint = s.crashPoint := by
  unfold updateMultiplier1
  split
  · rfl
  · dsimp only
    split <;> rfl

/-- The tick never changes the round start time. -/
theorem updateMultiplier1_startTime (s : State1) (now : ℤ) :
    (updateMultiplier1 s now).1.startTime = s.startTime := by
  unfold updateMultiplier1
  split
  · rfl
  · dsimp only
    split <;> rfl

/-- The state after a tick from a running state is crashed or running
according to whether the recomputed multiplier reached the crash point. -/
theorem updateMultiplier1_gameState (s : State1) (now : ℤ)
    (h : s.gameState = .running) :
    (updateMultiplier1 s now).1.gameState
      = if s.crashPoint ≤ 1 + ((now - s.startTime : ℤ) : ℚ) / 1000 * (1 / 10)
        then .crashed else .running := by
  unfold updateMultiplier1
  rw [if_neg (by simp [h])]
  dsimp only
  split
  · rfl
  · exact h

/-- C2 (amended): while a round is `'running'` the tick recomputes
`multiplier = 1 + (elapsed / 1000) * 0.1`, which is non-decreasing across
consecutive ticks as the clock advances, and never exceeds the sealed
crash point in a state that is still `'running'`: the tick whose computed
multiplier reaches or exceeds the crash point transitions the round to
`'crashed'`, but stores the computed multiplier unchanged (no clamping to
the crash point occurs).  The crash point itself is immutable under the
tick. -/
theorem running_multiplier_below_crashPoint (s : State1) (now : ℤ)
    (hrun : s.gameState = .running) :
    (updateMultiplier1 s now).1.multiplier
        = 1 + ((now - s.startTime : ℤ) : ℚ) / 1000 * (1 / 10)
    ∧ (updateMultiplier1 s now).1.crashPoint = s.crashPoint
    ∧ (1 + ((now - s.startTime : ℤ) : ℚ) / 1000 * (1 / 10) < s.crashPoint →
        (updateMultiplier1 s now).1.gameState = .running)
    ∧ (s.crashPoint ≤ 1 + ((now - s.startTime : ℤ) : ℚ) / 1000 * (1 / 10) →
        (updateMultiplier1 s now).1.gameState = .crashed)
    ∧ ((updateMultiplier1 s now).1.gameState = .running →
        (updateMultiplier1 s now).1.multiplier
          < (updateMultiplier1 s now).1.crashPoint)
    ∧ ∀ now2 : ℤ, now ≤ now2 →
        (updateMultiplier1 s now).1.gameState = .running →
        (updateMultiplier1 s now).1.multiplier
          ≤ (updateMultiplier1 (updateMultiplier1 s now).1 now2).1.multiplier := by
  have hm := updateMultiplier1_multiplier s now hrun
  refine ⟨hm, updateMultiplier1_crashPoint s now, ?_, ?_, ?_, ?_⟩
  · intro hlt
    rw [updateMultiplier1_gameState s now hrun, if_neg (not_le.mpr hlt)]
  · intro hge
    rw [updateMultiplier1_gameState s now hrun, if_pos hge]
  · intro hr1
    rw [hm, updateMultiplier1_crashPoint s now]
    by_contra hc
    push_neg at hc
    rw [updateMultiplier1_gameState s now hrun, if_pos hc] at hr1
    cases hr1
  · intro now2 h12 hr1
    rw [hm, updateMultiplier1_multiplier _ now2 hr1,
      updateMultiplier1_startTime s now]
    have hcast : ((now - s.startTime : ℤ) : ℚ)
        ≤ ((now2 - s.startTime : ℤ) : ℚ) := by
      exact_mod_cast (by omega : now - s.startTime ≤ now2 - s.startTime)
    linarith

/-- C2 (witness): the amended tick behaviour evaluated at `sRunC2`: the
tick at `now = 3000` computes `1.3 < 2.0`, so the round stays `'running'`
with `multiplier = 1.3`, below the crash point. -/
theorem running_multiplier_below_crashPoint_holds :
    (updateMultiplier1 sRunC2 3000).1.gameState = .running
    ∧ (updateMultiplier1 sRunC2 3000).1.multiplier
        < (updateMultiplier1 sRunC2 3000).1.crashPoint := by
  have h := running_multiplier_below_crashPoint sRunC2 3000 rfl
  have hrun : (updateMultiplier1 sRunC2 3000).1.gameState = .running :=
    h.2.2.1 (by norm_num [sRunC2])
  exact ⟨hrun, h.2.2.2.2.1 hrun⟩

/-! ### Lookup lemmas for the associative stores -/

instance instDecidableEqExcept {ε α : Type} [DecidableEq ε] [DecidableEq α] :
    DecidableEq (Except ε α) := fun a b =>
  match a, b with
  | .ok x, .ok y =>
    if h : x = y then isTrue (by rw [h])
    else isFalse (by simp [h])
  | .error x, .error y =>
    if h : x = y then isTrue (by rw [h])
    else isFalse (by simp [h])
  | .ok _, .error _ => isFalse (fun h => Except.noConfusion h)
  | .error _, .ok _ => isFalse (fun h => Except.noConfusion h)

theorem lookup_mapSet (l : List (ℕ × ABet)) (k : ℕ) (v : ABet) :
    List.lookup k (mapSet l k v) = some v := by
  by_cases hs : (List.lookup k l).isSome
  · rw [mapSet, if_pos hs]
    induction l with
    | nil => simp [List.lookup] at hs
    | cons p t ih =>
      by_cases hpk : p.1 = k
      · subst hpk
        rw [List.map_cons, if_pos (beq_self_eq_true p.1), List.lookup]
        simp only [beq_self_eq_true]
      · have hk : (k == p.1) = false := by
          simp [Ne.symm hpk]
        simp only [List.map_cons, if_neg (by simp [hpk] : ¬ (p.1 == k) = true)]
        rw [List.lookup] at hs ⊢
        simp only [hk] at hs ⊢
        exact ih hs
  · rw [mapSet, if_neg hs]
    induction l with
    | nil => simp [List.lookup]
    | cons p t ih =>
      have hk : (k == p.1) = false := by
        by_contra hc
        simp only [Bool.not_eq_false, beq_iff_eq] at hc
        subst hc
        simp [List.lookup] at hs
      rw [List.cons_append, List.lookup, hk]
      rw [List.lookup, hk] at hs
      exact ih hs

theorem lookup_updateUser (l : List (ℕ × User1)) (k : ℕ) (f : User1 → User1)
    (u : User1) (h : List.lookup k l = some u) :
    List.lookup k (updateUser l k f) = some (f u) := by
  induction l with
  | nil => simp [List.lookup] at h
  | cons p t ih =>
    by_cases hpk : p.1 = k
    · subst hpk
      simp only [List.lookup, beq_self_eq_true] at h
      injection h with h
      rw [updateUser, List.map_cons, if_pos (beq_self_eq_true p.1), List.lookup]
      simp only [beq_self_eq_true, h]
    · have hk : (k == p.1) = false := by simp [Ne.symm hpk]
      rw [List.lookup, hk] at h
      simp only [updateUser, List.map_cons,
        if_neg (by simp [hpk] : ¬ (p.1 == k) = true)]
      rw [List.lookup, hk]
      exact ih h

/-! ### Claim theorems: cashOut pays the current multiplier (C3) -/

/-- A second cashOut attempt by the same user fails: the map entry is
already marked cashed out. -/
theorem cashOut1_cashedOut_fails (s : State1) (userId : ℕ) (env : CashEnv)
    (bet : ABet)
    (hrun : s.gameState = .running)
    (hbet : List.lookup userId s.activeBets = some bet)
    (h : bet.cashedOut = true) :
    (cashOut1 userId env s).2 = .error (maskedByRollback .noActiveBetFound) := by
  unfold cashOut1
  rw [if_neg (by simp [hrun])]
  simp only [hbet, h, if_true]

/-- C3: a cashOut accepted while the round is `'running'` (and below the
crash point) — the transaction queries succeeding — returns
`payout = bet.amount * multiplier` at the instant of acceptance, credits
the user's balance by exactly that payout, marks the bet cashed out, and
a second cashOut by the same user fails whatever its transaction
outcome. -/
theorem cashOut_pays_current_multiplier (s : State1) (userId : ℕ)
    (env : CashEnv) (bet : ABet) (u : User1)
    (hrun : s.gameState = .running)
    (hlt : s.multiplier < s.crashPoint)
    (hbet : List.lookup userId s.activeBets = some bet)
    (hcash : bet.cashedOut = false)
    (huser : List.lookup userId s.users = some u)
    (henv1 : env.updateUsersOk = true)
    (henv2 : env.updateBetsOk = true)
    (henv3 : env.commitOk = true) :
    (cashOut1 userId env s).2 =
      .ok ⟨s.multiplier, bet.amount * s.multiplier,
           bet.amount * s.multiplier - bet.amount⟩
    ∧ List.lookup userId (cashOut1 userId env s).1.users =
        some ⟨u.balance + bet.amount * s.multiplier,
              u.totalWon + (bet.amount * s.multiplier - bet.amount)⟩
    ∧ List.lookup userId (cashOut1 userId env s).1.activeBets =
        some { bet with
                 cashedOut := true,
                 cashOutMultiplier := some s.multiplier,
                 cashOutAmount := some (bet.amount * s.multiplier) }
    ∧ ∀ env2 : CashEnv, (cashOut1 userId env2 (cashOut1 userId env s).1).2
        = .error (maskedByRollback .noActiveBetFound) := by
  have hres : cashOut1 userId env s =
      ({ s with
          activeBets := mapSet s.activeBets userId
            { bet with
                cashedOut := true,
                cashOutMultiplier := some s.multiplier,
                cashOutAmount := some (bet.amount * s.multiplier) },
          users := updateUser s.users userId
            (fun w => ⟨w.balance + bet.amount * s.multiplier,
                       w.totalWon + (bet.amount * s.multiplier - bet.amount)⟩),
          bets := s.bets.map (fun r =>
            if r.betId == bet.betId then
              { r with
                  status := .cashedOut,
                  cashOutAt := some s.multiplier,
                  cashOutAmount := some (bet.amount * s.multiplier),
                  profit := bet.amount * s.multiplier - bet.amount }
            else r) },
       .ok ⟨s.multiplier, bet.amount * s.multiplier,
            bet.amount * s.multiplier - bet.amount⟩) := by
    unfold cashOut1
    rw [if_neg (by simp [hrun])]
    simp only [hbet, hcash, Bool.false_eq_true, if_false]
    rw [if_pos (by simp [henv1, henv2, henv3])]
  refine ⟨by rw [hres], ?_, ?_, ?_⟩
  · rw [hres]
    dsimp only
    exact lookup_updateUser _ _ _ _ huser
  · rw [hres]
    dsimp only
    exact lookup_mapSet _ _ _
  · intro env2
    rw [hres]
    dsimp only
    exact cashOut1_cashedOut_fails _ userId env2 _ hrun (lookup_mapSet _ _ _) rfl

/-- Concrete running state for the C3 witness: user `1` has an uncashed
bet of `10` at current multiplier `2.0`, crash point `3.5`, balance
`100`. -/
def sC3 : State1 :=
  ⟨.running, 2, 7 / 2, 1, 0,
   [(1, ⟨10, 10, false, none, none⟩)],
   [(1, ⟨100, 0⟩)],
   [⟨10, 1, 1, 10, none, none, 0, .active⟩]⟩

/-- C3 (witness): at `sC3` all the preconditions hold and the second
cashOut attempt fails. -/
theorem cashOut_pays_current_multiplier_holds :
    (cashOut1 1 ⟨true, true, true⟩ (cashOut1 1 ⟨true, true, true⟩ sC3).1).2
      = .error (maskedByRollback .noActiveBetFound) :=
  (cashOut_pays_current_multiplier sC3 1 ⟨true, true, true⟩
    ⟨10, 10, false, none, none⟩ ⟨100, 0⟩
    rfl (of_decide_eq_true (by with_unfolding_all rfl))
    (by with_unfolding_all rfl) rfl (by with_unfolding_all rfl)
    rfl rfl rfl).2.2.2 ⟨true, true, true⟩

/-! ### Claim theorems: cashOut after the crash (C4) -/

/-- A MongoDB round whose terminal transition has been recorded
(`endRound` sets `status = 'completed'`), with an unresolved bet by
player `1`. -/
def rC4 : MRound :=
  ⟨7, 2, "s", 0, .completed, [⟨1, 10, none, .BTC⟩], [], 2⟩

/-- State after the crash has been recorded. -/
def sC4 : MState := ⟨7, some rC4, 2, [(1, ⟨"p", ⟨1 / 100, 1 / 10⟩, 0⟩)]⟩

/-- C4 (counterexample): once the round's terminal status is recorded,
`cashOut` fails with the generic "no active round" error, not with the
crash-specific "round has crashed" error, so the claim "fails with a
RoundCrashed error" does not hold for such requests.  The state (and so
the bet) is unchanged. -/
theorem cashOut_after_record_generic_error :
    mongoCashOut 1 50000 sC4 = (sC4, .error .noActiveRound)
    ∧ MErr.noActiveRound ≠ MErr.roundCrashed :=
  of_decide_eq_true (by with_unfolding_all rfl)

/-- C4 (amended): a cashOut evaluated after the crash always fails and
leaves the state — and hence every bet and balance — unchanged; the
crash-specific `roundCrashed` error is returned exactly when the request
lands in the crash tick (round still `'active'` but the multiplier has
reached the crash point; the MongoDB guards sit outside the `try`, so
these errors reach the caller intact); once the terminal status is
recorded the failure is the generic no-active-round error (MongoDB
engine), while in the SQLite engine the guard's "Cannot cash out now" is
thrown inside the `try` and replaced in the `catch` by the failed bare
`ROLLBACK`, so the caller observes the
"cannot rollback - no transaction is active" error. -/
theorem cashOut_after_crash_fails_unchanged :
    (∀ (s : MState) (pid : ℕ) (price : ℚ) (r : MRound),
      s.currentRound = some r →
      (r.status = .completed →
        mongoCashOut pid price s = (s, .error .noActiveRound))
      ∧ (r.status = .active → r.crashPoint ≤ s.currentMultiplier →
          mongoCashOut pid price s = (s, .error .roundCrashed)))
    ∧ ∀ (s : State1) (uid : ℕ) (env : CashEnv), s.gameState = .crashed →
        cashOut1 uid env s = (s, .error (maskedByRollback .cannotCashOutNow)) := by
  constructor
  · intro s pid price r hr
    constructor
    · intro hst
      unfold mongoCashOut
      simp only [hr]
      rw [if_pos (by simp [hst])]
    · intro hst hge
      unfold mongoCashOut
      simp only [hr]
      rw [if_neg (by simp [hst]), if_pos hge]
  · intro s uid env h
    unfold cashOut1
    rw [if_pos (by simp [h])]

/-- A MongoDB state in the crash tick: round still `'active'` but the
multiplier has reached the crash point. -/
def rC4b : MRound :=
  ⟨7, 2, "s", 0, .active, [⟨1, 10, none, .BTC⟩], [], 1⟩

/-- State for the C4 witness. -/
def sC4b : MState := ⟨7, some rC4b, 2, [(1, ⟨"p", ⟨1 / 100, 1 / 10⟩, 0⟩)]⟩

/-- C4 (witness): in the crash tick the failure is `roundCrashed` and the
state is unchanged. -/
theorem cashOut_after_crash_fails_unchanged_holds :
    mongoCashOut 1 50000 sC4b = (sC4b, .error .roundCrashed) :=
  (cashOut_after_crash_fails_unchanged.1 sC4b 1 50000 rC4b rfl).2 rfl
    (of_decide_eq_true (by with_unfolding_all rfl))

/-! ### Claim theorems: duplicate bets (C5) -/

/-- A betting-phase SQLite state in which user `1` already has a bet. -/
def sDup : State1 :=
  ⟨.betting, 1, 2, 1, 0,
   [(1, ⟨7, 10, false, none, none⟩)],
   [(1, ⟨100, 0⟩)],
   [⟨7, 1, 1, 10, none, none, 0, .active⟩]⟩

/-- C5 (counterexample): the claim "a second placeBet ... fails with a
DuplicateBet error" does not hold as observed by the caller: the SQLite
engine throws "You already have a bet in this round" inside the `try`,
but the `catch`'s bare `ROLLBACK` (no transaction is open) rejects first,
so the caller receives the "cannot rollback" error instead of a
duplicate-bet error.  The state — balance and ledger — is unchanged. -/
theorem duplicate_rejection_error_masked :
    placeBet1 1 10 ⟨true, true, true, 8⟩ sDup = (sDup, .error .rollbackFailed)
    ∧ GErr.rollbackFailed ≠ GErr.duplicateBet :=
  of_decide_eq_true (by with_unfolding_all rfl)

/-- C5 (amended): in the SQLite engine, while betting is open and the
amount is in bounds, a second `placeBet` by a user who already has an
entry in `activeBets` is rejected before any mutation — the thrown
duplicate-bet error reaching the caller masked by the failed bare
`ROLLBACK` — with balance and ledger unchanged.  The MongoDB engine has
no duplicate check at all, but its `placeBet` never records any bet in
the first place: the `cryptoAmt`/`cryptoAmount` schema mismatch makes
every round save fail validation, so no call ever returns success and
the at-most-one-recorded-bet invariant holds there vacuously. -/
theorem duplicate_bet_rejected :
    (∀ (s : State1) (u : ℕ) (amt : ℚ) (env : SqlEnv) (b : ABet),
      s.gameState = .betting →
      ¬ (amt < MIN_BET_AMOUNT ∨ amt > MAX_BET_AMOUNT) →
      List.lookup u s.activeBets = some b →
      placeBet1 u amt env s = (s, .error (maskedByRollback .duplicateBet)))
    ∧ ∀ (pid : ℕ) (usd : ℚ) (c : Curr) (price : ℚ) (now : ℤ)
        (env : SaveEnv) (s : MState),
        (mongoPlaceBet pid usd c price now env s).2.toOption = none := by
  constructor
  · intro s u amt env b hbet hamt hdup
    unfold placeBet1
    rw [if_neg (by simp [hbet]), if_neg hamt, if_pos (by simp [hdup])]
  · intro pid usd c price now env s
    unfold mongoPlaceBet
    repeat' split
    all_goals try rfl
    all_goals try simp_all [List.all_append, betValid]
    all_goals split <;> rfl

/-- C5 (witness): the duplicate rejection evaluated at `sDup`. -/
theorem duplicate_bet_rejected_holds :
    placeBet1 1 10 ⟨true, true, true, 8⟩ sDup
      = (sDup, .error (maskedByRollback .duplicateBet)) :=
  duplicate_bet_rejected.1 sDup 1 10 ⟨true, true, true, 8⟩
    ⟨7, 10, false, none, none⟩
    rfl (by norm_num [MIN_BET_AMOUNT, MAX_BET_AMOUNT])
    (by with_unfolding_all rfl)

/-! ### Claim theorems: placeBet atomicity (C6) -/

theorem placeBet1_error_unchanged (s : State1) (u : ℕ) (amt : ℚ) (env : SqlEnv) :
    (placeBet1 u amt env s).2.toOption = none → (placeBet1 u amt env s).1 = s := by
  unfold placeBet1
  repeat' split
  all_goals intro h
  all_goals first
    | rfl
    | simp [Except.toOption] at h

theorem placeBet1_success_effects (s : State1) (u : ℕ) (amt : ℚ) (env : SqlEnv)
    (u0 : User1)
    (h1 : s.gameState = .betting)
    (h2 : ¬ (amt < MIN_BET_AMOUNT ∨ amt > MAX_BET_AMOUNT))
    (h3 : List.lookup u s.activeBets = none)
    (h4 : List.lookup u s.users = some u0)
    (h5 : ¬ u0.balance < amt)
    (h6 : env.updateOk = true) (h7 : env.insertOk = true)
    (h8 : env.commitOk = true) :
    placeBet1 u amt env s =
      ({ s with
          users := updateUser s.users u
            (fun w => { w with balance := w.balance - amt }),
          bets := s.bets ++
            [⟨env.newBetId, u, s.currentRound, amt, none, none, 0, .active⟩],
          activeBets := mapSet s.activeBets u
            ⟨env.newBetId, amt, false, none, none⟩ },
       .ok ⟨env.newBetId⟩) := by
  unfold placeBet1
  rw [if_neg (by simp [h1]), if_neg h2, if_neg (by simp [h3])]
  simp only [h4]
  rw [if_neg h5, if_pos (by simp [h6, h7, h8])]

/-- C6: `placeBet` in the SQLite engine is atomic.  Every failing call —
including an insufficient-balance rejection and a failed query inside the
transaction (rolled back) — leaves the state exactly as before; every
successful call debits the balance, inserts the bet row and registers the
active-bet entry together. -/
theorem placeBet_atomic (s : State1) (u : ℕ) (amt : ℚ) (env : SqlEnv) :
    ((placeBet1 u amt env s).2.toOption = none → (placeBet1 u amt env s).1 = s)
    ∧ ∀ u0 : User1, s.gameState = .betting →
        ¬ (amt < MIN_BET_AMOUNT ∨ amt > MAX_BET_AMOUNT) →
        List.lookup u s.activeBets = none →
        List.lookup u s.users = some u0 →
        ¬ u0.balance < amt →
        env.updateOk = true → env.insertOk = true → env.commitOk = true →
        placeBet1 u amt env s =
          ({ s with
              users := updateUser s.users u
                (fun w => { w with balance := w.balance - amt }),
              bets := s.bets ++
                [⟨env.newBetId, u, s.currentRound, amt, none, none, 0, .active⟩],
              activeBets := mapSet s.activeBets u
                ⟨env.newBetId, amt, false, none, none⟩ },
           .ok ⟨env.newBetId⟩) :=
  ⟨placeBet1_error_unchanged s u amt env,
   fun u0 h1 h2 h3 h4 h5 h6 h7 h8 =>
     placeBet1_success_effects s u amt env u0 h1 h2 h3 h4 h5 h6 h7 h8⟩

/-- A betting-phase SQLite state where user `1` has balance `5`,
insufficient for a bet of `10`. -/
def sIns : State1 := ⟨.betting, 1, 2, 9, 0, [], [(1, ⟨5, 0⟩)], []⟩

/-- A betting-phase SQLite state where user `1` has balance `100`. -/
def sFresh : State1 := ⟨.betting, 1, 2, 9, 0, [], [(1, ⟨100, 0⟩)], []⟩

/-- C6 (witness): at `sIns` the bet fails and the state is unchanged; at
`sFresh` the bet succeeds with both the debit and the inserted row. -/
theorem placeBet_atomic_holds :
    (placeBet1 1 10 ⟨true, true, true, 5⟩ sIns).1 = sIns
    ∧ placeBet1 1 10 ⟨true, true, true, 5⟩ sFresh =
        ({ sFresh with
            users := updateUser sFresh.users 1
              (fun w => { w with balance := w.balance - 10 }),
            bets := sFresh.bets ++
              [⟨5, 1, sFresh.currentRound, 10, none, none, 0, .active⟩],
            activeBets := mapSet sFresh.activeBets 1 ⟨5, 10, false, none, none⟩ },
         .ok ⟨5⟩) :=
  ⟨(placeBet_atomic sIns 1 10 ⟨true, true, true, 5⟩).1
      (by with_unfolding_all rfl),
   (placeBet_atomic sFresh 1 10 ⟨true, true, true, 5⟩).2 ⟨100, 0⟩ rfl
      (by norm_num [MIN_BET_AMOUNT, MAX_BET_AMOUNT])
      (by with_unfolding_all rfl) (by with_unfolding_all rfl)
      (by norm_num) rfl rfl rfl⟩

/-- A fresh MongoDB round with no bets yet. -/
def rC6 : MRound := ⟨4, 5, "s", 0, .active, [], [], 1⟩

/-- State for the C6 counterexample: player `1` holds `0.01` BTC. -/
def sC6 : MState := ⟨4, some rC6, 1, [(1, ⟨"p", ⟨1 / 100, 0⟩, 0⟩)]⟩

/-- C6 (counterexample): in the MongoDB engine the wallet debit is saved
before the bet is recorded and there is no rollback: when the round save
fails, `placeBet` returns an error, yet the player's wallet has been
debited and no bet was recorded — the balance debit and the bet insertion
did not take effect atomically. -/
theorem mongo_placeBet_debits_without_recording :
    (mongoPlaceBet 1 10 .BTC 100000 1000 ⟨true, false, true⟩ sC6).2
      = .error .saveFailed
    ∧ (mongoPlaceBet 1 10 .BTC 100000 1000 ⟨true, false, true⟩ sC6).1.players
        ≠ sC6.players
    ∧ (mongoPlaceBet 1 10 .BTC 100000 1000 ⟨true, false, true⟩ sC6).1.currentRound
        = sC6.currentRound :=
  of_decide_eq_true (by with_unfolding_all rfl)

/-! ### Claim theorems: settlement (C7) -/

/-- The effect of one `activeBets` entry on one bet row during
`processActiveBets`. -/
def settleStep (p : ℕ × ABet) (r : BetRow) : BetRow :=
  if p.2.cashedOut then r
  else if r.betId == p.2.betId then
    { r with status := .lost, profit := -r.betAmount }
  else r

/-- The cumulative effect of `processActiveBets` on one bet row. -/
def settleOne (entries : List (ℕ × ABet)) (r : BetRow) : BetRow :=
  entries.foldl (fun r p => settleStep p r) r

/-- The `'lost'` finalisation of a bet row. -/
def lostOf (r : BetRow) : BetRow :=
  { r with status := .lost, profit := -r.betAmount }

theorem settleStep_lostOf (p : ℕ × ABet) (r : BetRow) :
    settleStep p (lostOf r) = lostOf r := by
  unfold settleStep lostOf
  split
  · rfl
  · split <;> rfl

theorem settleOne_lostOf (es : List (ℕ × ABet)) (r : BetRow) :
    settleOne es (lostOf r) = lostOf r := by
  induction es with
  | nil => rfl
  | cons q t ih =>
    show settleOne t (settleStep q (lostOf r)) = lostOf r
    rw [settleStep_lostOf]
    exact ih

theorem foldl_settle_eq_map (es : List (ℕ × ABet)) (rows : List BetRow) :
    es.foldl (fun rows p =>
        if p.2.cashedOut then rows
        else rows.map (fun r =>
          if r.betId == p.2.betId then
            { r with status := .lost, profit := -r.betAmount }
          else r)) rows
      = rows.map (settleOne es) := by
  induction es generalizing rows with
  | nil =>
    simp only [List.foldl_nil]
    have : settleOne [] = fun r => r := rfl
    rw [this, List.map_id']
  | cons q t ih =>
    rw [List.foldl_cons, ih]
    by_cases hc : q.2.cashedOut
    · rw [if_pos hc]
      apply List.map_congr_left
      intro r _
      show settleOne t r = settleOne t (settleStep q r)
      rw [show settleStep q r = r by simp [settleStep, hc]]
    · rw [if_neg hc, List.map_map]
      apply List.map_congr_left
      intro r _
      show settleOne t
          (if r.betId == q.2.betId then
            { r with status := .lost, profit := -r.betAmount }
          else r)
        = settleOne t (settleStep q r)
      rw [show settleStep q r =
        (if r.betId == q.2.betId then
          { r with status := .lost, profit := -r.betAmount }
        else r) by simp [settleStep, hc]]

theorem processActiveBets1_bets (s : State1) :
    (processActiveBets1 s).bets = s.bets.map (settleOne s.activeBets) := by
  unfold processActiveBets1
  exact foldl_settle_eq_map _ _

theorem settleOne_of_match (es : List (ℕ × ABet)) (r : BetRow)
    (h : ∃ p ∈ es, p.2.cashedOut = false ∧ p.2.betId = r.betId) :
    settleOne es r = lostOf r := by
  induction es with
  | nil =>
    rcases h with ⟨p, hp, _⟩
    cases hp
  | cons q t ih =>
    show settleOne t (settleStep q r) = lostOf r
    by_cases hq : q.2.cashedOut = false ∧ q.2.betId = r.betId
    · have hstep : settleStep q r = lostOf r := by
        simp [settleStep, hq.1, hq.2, lostOf]
      rw [hstep]
      exact settleOne_lostOf t r
    · have hstep : settleStep q r = r := by
        unfold settleStep
        by_cases hc : q.2.cashedOut
        · rw [if_pos hc]
        · rw [if_neg hc]
          have hne : q.2.betId ≠ r.betId := by
            intro hbeq
            exact hq ⟨Bool.eq_false_iff.mpr hc, hbeq⟩
          rw [if_neg (by simp [Ne.symm hne])]
      rw [hstep]
      apply ih
      rcases h with ⟨p, hp, hcond⟩
      rcases List.mem_cons.mp hp with rfl | hmem
      · exact absurd hcond hq
      · exact ⟨p, hmem, hcond⟩

theorem settleOne_cases (es : List (ℕ × ABet)) (r : BetRow) :
    settleOne es r = r ∨ settleOne es r = lostOf r := by
  induction es with
  | nil => exact Or.inl rfl
  | cons q t ih =>
    show settleOne t (settleStep q r) = r ∨ settleOne t (settleStep q r) = lostOf r
    have hs : settleStep q r = r ∨ settleStep q r = lostOf r := by
      unfold settleStep lostOf
      split
      · exact Or.inl rfl
      · split
        · exact Or.inr rfl
        · exact Or.inl rfl
    rcases hs with hs | hs
    · rw [hs]; exact ih
    · rw [hs]; exact Or.inr (settleOne_lostOf t r)

theorem settleOne_roundId (es : List (ℕ × ABet)) (r : BetRow) :
    (settleOne es r).roundId = r.roundId := by
  rcases settleOne_cases es r with h | h
  · rw [h]
  · rw [h]; rfl

/-- C7 (amended): under the invariant that every `'active'` row of the
current round is tracked by an uncashed `activeBets` entry — which holds
in every execution in which no cash-out transaction has failed in flight,
but not in general, since `cashOut` sets the in-memory `cashedOut` flag
before `BEGIN` and never reverts it — `processActiveBets`, invoked by
`crashGame` at the CRASHED transition, turns every still-active bet of
the round into `'lost'` with `profit = -betAmount` and no payout
(`cash_out_amount` stays `NULL`), and afterwards no bet of the round is
`'active'`. -/
theorem settlement_leaves_no_active_bets (s : State1)
    (hinv : ∀ r ∈ s.bets, r.roundId = s.currentRound → r.status = .active →
      (∃ p ∈ s.activeBets, p.2.cashedOut = false ∧ p.2.betId = r.betId)
      ∧ r.cashOutAmount = none) :
    (∀ r ∈ s.bets, r.roundId = s.currentRound → r.status = .active →
      settleOne s.activeBets r = lostOf r
      ∧ (lostOf r).status = .lost
      ∧ (lostOf r).profit = -r.betAmount
      ∧ (lostOf r).cashOutAmount = none)
    ∧ ∀ r2 ∈ (processActiveBets1 s).bets, r2.roundId = s.currentRound →
        r2.status ≠ .active := by
  constructor
  · intro r hr hround hact
    obtain ⟨hex, hnone⟩ := hinv r hr hround hact
    exact ⟨settleOne_of_match _ _ hex, rfl, rfl, hnone⟩
  · intro r2 hr2 hround
    rw [processActiveBets1_bets] at hr2
    obtain ⟨r, hr, rfl⟩ := List.mem_map.mp hr2
    have hroundr : r.roundId = s.currentRound := by
      rwa [settleOne_roundId] at hround
    rcases settleOne_cases s.activeBets r with heq | heq
    · rw [heq]
      intro hact
      have hlost := settleOne_of_match _ _ (hinv r hr hroundr hact).1
      rw [heq] at hlost
      have : r.status = .lost := by rw [hlost]; rfl
      rw [this] at hact
      cases hact
    · rw [heq]
      intro hact
      cases hact
/-- A crashed SQLite state with one still-active bet (row `11`, user `1`)
and one cashed-out bet (row `12`, user `2`). -/
def sC7 : State1 :=
  ⟨.crashed, 5 / 2, 5 / 2, 1, 0,
   [(1, ⟨11, 10, false, none, none⟩), (2, ⟨12, 5, true, some 2, some 10⟩)],
   [(1, ⟨100, 0⟩), (2, ⟨110, 5⟩)],
   [⟨11, 1, 1, 10, none, none, 0, .active⟩,
    ⟨12, 2, 1, 5, some 2, some 10, 5, .cashedOut⟩]⟩

/-- C7 (witness): settling `sC7` leaves the previously active row `11`
finalised as `'lost'`, hence not `'active'`. -/
theorem settlement_leaves_no_active_bets_holds :
    (⟨11, 1, 1, 10, none, none, -10, .lost⟩ : BetRow).status ≠ .active :=
  (settlement_leaves_no_active_bets sC7
      (of_decide_eq_true (by with_unfolding_all rfl))).2
    ⟨11, 1, 1, 10, none, none, -10, .lost⟩
    (of_decide_eq_true (by with_unfolding_all rfl))
    (by with_unfolding_all rfl)

/-- A running SQLite state with one uncashed bet by user `1` (row `11`),
the starting point of the C7 counterexample. -/
def sC7pre : State1 :=
  ⟨.running, 2, 7 / 2, 1, 0,
   [(1, ⟨11, 10, false, none, none⟩)],
   [(1, ⟨100, 0⟩)],
   [⟨11, 1, 1, 10, none, none, 0, .active⟩]⟩

/-- The state after a cash-out from `sC7pre` whose `users` update inside
the transaction fails: the database writes are rolled back (the row is
still `'active'`), but the in-memory map entry — mutated before
`BEGIN TRANSACTION` — stays marked cashed out. -/
def sC7fail : State1 := (cashOut1 1 ⟨false, true, true⟩ sC7pre).1

/-- The state after the round then crashes and settles. -/
def sC7post : State1 := (crashGame1 sC7fail 0).1

/-- C7 (counterexample): settlement does not reach every bet of the
round.  After a cash-out whose transaction failed — the map entry reads
cashed out while the row was rolled back to `'active'` —
`processActiveBets` (run by `crashGame`) skips the entry, and the round's
row `11` is still `'active'` after the CRASHED transition completes,
contradicting "no Bet of the round remains ACTIVE". -/
theorem settlement_can_leave_active_bet :
    (List.lookup 1 sC7fail.activeBets).map ABet.cashedOut = some true
    ∧ (⟨11, 1, 1, 10, none, none, 0, .active⟩ : BetRow) ∈ sC7post.bets
    ∧ sC7post.gameState = .crashed
    ∧ (⟨11, 1, 1, 10, none, none, 0, .active⟩ : BetRow).roundId
        = sC7post.currentRound :=
  of_decide_eq_true (by with_unfolding_all rfl)

/-! ### Claim theorems: crash-point secrecy (C9) -/

/-- A running MongoDB round (crash point `5.6`) one tick before the
multiplier reaches `2.00`. -/
def rC9 : MRound := ⟨7, 28 / 5, "s", 0, .active, [], [], 1⟩

/-- State for the C9 theorem. -/
def sC9 : MState := ⟨7, some rC9, 199 / 100, []⟩

/-- A running SQLite state for the `getCurrentGameState` part of C9. -/
def sRun9 : State1 := ⟨.running, 2, 28 / 5, 7, 0, [], [], []⟩

/-- C9 (code bug): while the SQLite engine's `getCurrentGameState` does
keep the crash point `null` before the crash, the MongoDB engine's
multiplier ticker broadcasts `multiplier_update` with a `crashPoint`
field: the tick from `sC9` emits the round's sealed crash point `5.6` to
all clients while the round is still `'active'` — the crash point is
exposed long before the round crashes. -/
theorem ticker_exposes_crashPoint :
    (mongoTick sC9).2 = [MEvent.multiplierUpdate 7 2 (28 / 5)]
    ∧ ((mongoTick sC9).1.currentRound.map MRound.status) = some .active
    ∧ (sC9.currentRound.map MRound.crashPoint) = some (28 / 5)
    ∧ (getCurrentGameState sRun9).crashPoint = none :=
  of_decide_eq_true (by with_unfolding_all rfl)

end Crash
